import Mathlib

/-!
# Verification of the camera-composite application core

A shallow embedding of the application's model layer (`app/model.py`,
class `ImageProcessingModel`) and controller layer (`app/interface.py`,
class `Interface`), together with proofs of the specified properties of
the frame-acquisition and pixel-compositing engine.

Frames are two-dimensional grids of pixel triples, indexed `pixel y x`
(row first) exactly like the numpy indexing `img[y, x]` in the source.
Python exceptions (`ValueError`, `ZeroDivisionError`) are embedded as an
`Except` error type; statements parameterise over camera reads and file
dialogs, which are external inputs.
-/

/-- A pixel triple.  In the source these are 8-bit BGR channel values;
channel width plays no role in the compositing logic, so channels are
embedded as `Nat`. -/
abbrev Pixel := Nat × Nat × Nat

/-- A frame: height, width, and the grid of pixels.  `pixel y x` is the
numpy access `img[y, x]` of the source. -/
structure Frame where
  height : Nat
  width : Nat
  pixel : Nat → Nat → Pixel

/-- In-place update `img[y, x] = p` of the source, on the value level:
the updated grid agrees with `f` everywhere except at `(y, x)`. -/
def writePixel (f : Frame) (y x : Nat) (p : Pixel) : Frame :=
  { f with pixel := fun y0 x0 => if y0 = y ∧ x0 = x then p else f.pixel y0 x0 }

/-- Embedded Python exceptions raised by the model layer. -/
inductive PyError where
  | valueError (msg : String)
  | zeroDivisionError
deriving DecidableEq

/-- Python `a % b` on nonnegative integers: raises `ZeroDivisionError`
when the divisor is zero. -/
def pymod (a b : Nat) : Except PyError Nat :=
  if b = 0 then .error .zeroDivisionError else .ok (a % b)

/-- The pure-white test constant `(255, 255, 255)` of
`process_and_capture_composite_image`. -/
def whitePixel : Pixel := (255, 255, 255)

/-- One iteration of the inner loop body of
`process_and_capture_composite_image` (model.py lines 105-109): read
`composite_img[y, x]`, and if it is pure white overwrite it with
`capture_img[y % c_hight, x % c_width]`.  `y % c_hight` is evaluated
before `x % c_width`, as in the source. -/
def composeStepE (capture : Frame) (x y : Nat) (acc : Frame) : Except PyError Frame :=
  if acc.pixel y x = whitePixel then
    match pymod y capture.height with
    | .error e => .error e
    | .ok ym =>
      match pymod x capture.width with
      | .error e => .error e
      | .ok xm => .ok (writePixel acc y x (capture.pixel ym xm))
  else .ok acc

/-- The inner loop `for y in range(g_hight)` at a fixed column `x`,
over an explicit list of row indices. -/
def composeCol (capture : Frame) (x : Nat) : List Nat → Frame → Except PyError Frame
  | [], acc => .ok acc
  | y :: ys, acc =>
    match composeStepE capture x y acc with
    | .error e => .error e
    | .ok acc2 => composeCol capture x ys acc2

/-- The outer loop `for x in range(g_width)`, each column scanning the
fixed row range `range gH`. -/
def composeAll (capture : Frame) (gH : Nat) : List Nat → Frame → Except PyError Frame
  | [], acc => .ok acc
  | x :: xs, acc =>
    match composeCol capture x (List.range gH) acc with
    | .error e => .error e
    | .ok acc2 => composeAll capture gH xs acc2

/-- The compositing algorithm of `process_and_capture_composite_image`
(model.py lines 97-113): start from a copy of the template, fix
`g_hight, g_width` from its shape, and run the white-substitution
double loop. -/
def composeFun (template capture : Frame) : Except PyError Frame :=
  composeAll capture template.height (List.range template.width) template

/-- Total version of `composeStepE`, meaningful when the capture frame
has positive dimensions (so that the Python `%` cannot raise). -/
def composeStepT (capture : Frame) (x y : Nat) (acc : Frame) : Frame :=
  if acc.pixel y x = whitePixel then
    writePixel acc y x (capture.pixel (y % capture.height) (x % capture.width))
  else acc

/-- Total version of `composeCol`. -/
def composeColT (capture : Frame) (x : Nat) : List Nat → Frame → Frame
  | [], acc => acc
  | y :: ys, acc => composeColT capture x ys (composeStepT capture x y acc)

/-- Total version of `composeAll`. -/
def composeAllT (capture : Frame) (gH : Nat) : List Nat → Frame → Frame
  | [], acc => acc
  | x :: xs, acc => composeAllT capture gH xs (composeColT capture x (List.range gH) acc)

/-- Total version of `composeFun`: the value the compositing loop
computes when the capture frame has positive dimensions. -/
def composeTotal (template capture : Frame) : Frame :=
  composeAllT capture template.height (List.range template.width) template

@[simp]
theorem writePixel_height (f : Frame) (y x : Nat) (p : Pixel) :
    (writePixel f y x p).height = f.height := rfl

@[simp]
theorem writePixel_width (f : Frame) (y x : Nat) (p : Pixel) :
    (writePixel f y x p).width = f.width := rfl

@[simp]
theorem writePixel_same (f : Frame) (y x : Nat) (p : Pixel) :
    (writePixel f y x p).pixel y x = p := by
  simp [writePixel]

theorem writePixel_other (f : Frame) (y x : Nat) (p : Pixel) {y0 x0 : Nat}
    (h : y0 ≠ y ∨ x0 ≠ x) :
    (writePixel f y x p).pixel y0 x0 = f.pixel y0 x0 := by
  have hne : ¬ (y0 = y ∧ x0 = x) := by
    rcases h with h | h
    · exact fun hc => h hc.1
    · exact fun hc => h hc.2
  simp [writePixel, hne]

theorem composeStepE_eq_ok {capture : Frame} (hh : capture.height ≠ 0)
    (hw : capture.width ≠ 0) (x y : Nat) (acc : Frame) :
    composeStepE capture x y acc = .ok (composeStepT capture x y acc) := by
  unfold composeStepE composeStepT pymod
  by_cases hp : acc.pixel y x = whitePixel <;> simp [hp, hh, hw]

theorem composeCol_eq_ok {capture : Frame} (hh : capture.height ≠ 0)
    (hw : capture.width ≠ 0) (x : Nat) (ys : List Nat) (acc : Frame) :
    composeCol capture x ys acc = .ok (composeColT capture x ys acc) := by
  induction ys generalizing acc with
  | nil => rfl
  | cons y ys ih =>
    rw [composeCol, composeStepE_eq_ok hh hw, composeColT]
    exact ih _

theorem composeAll_eq_ok {capture : Frame} (hh : capture.height ≠ 0)
    (hw : capture.width ≠ 0) (gH : Nat) (xs : List Nat) (acc : Frame) :
    composeAll capture gH xs acc = .ok (composeAllT capture gH xs acc) := by
  induction xs generalizing acc with
  | nil => rfl
  | cons x xs ih =>
    rw [composeAll, composeCol_eq_ok hh hw, composeAllT]
    exact ih _

/-- With a positive-dimension capture frame, the compositing loop never
raises and computes `composeTotal`. -/
theorem composeFun_eq_ok {capture : Frame} (hh : 0 < capture.height)
    (hw : 0 < capture.width) (template : Frame) :
    composeFun template capture = .ok (composeTotal template capture) :=
  composeAll_eq_ok (Nat.pos_iff_ne_zero.mp hh) (Nat.pos_iff_ne_zero.mp hw) _ _ _

@[simp]
theorem composeStepT_height (capture : Frame) (x y : Nat) (acc : Frame) :
    (composeStepT capture x y acc).height = acc.height := by
  unfold composeStepT; split <;> rfl

@[simp]
theorem composeStepT_width (capture : Frame) (x y : Nat) (acc : Frame) :
    (composeStepT capture x y acc).width = acc.width := by
  unfold composeStepT; split <;> rfl

@[simp]
theorem composeColT_height (capture : Frame) (x : Nat) (ys : List Nat) (acc : Frame) :
    (composeColT capture x ys acc).height = acc.height := by
  induction ys generalizing acc with
  | nil => rfl
  | cons y ys ih => rw [composeColT, ih]; simp

@[simp]
theorem composeColT_width (capture : Frame) (x : Nat) (ys : List Nat) (acc : Frame) :
    (composeColT capture x ys acc).width = acc.width := by
  induction ys generalizing acc with
  | nil => rfl
  | cons y ys ih => rw [composeColT, ih]; simp

@[simp]
theorem composeAllT_height (capture : Frame) (gH : Nat) (xs : List Nat) (acc : Frame) :
    (composeAllT capture gH xs acc).height = acc.height := by
  induction xs generalizing acc with
  | nil => rfl
  | cons x xs ih => rw [composeAllT, ih]; simp

@[simp]
theorem composeAllT_width (capture : Frame) (gH : Nat) (xs : List Nat) (acc : Frame) :
    (composeAllT capture gH xs acc).width = acc.width := by
  induction xs generalizing acc with
  | nil => rfl
  | cons x xs ih => rw [composeAllT, ih]; simp

theorem composeStepT_pixel_other (capture : Frame) (x y : Nat) (acc : Frame)
    {y0 x0 : Nat} (h : y0 ≠ y ∨ x0 ≠ x) :
    (composeStepT capture x y acc).pixel y0 x0 = acc.pixel y0 x0 := by
  unfold composeStepT
  split
  · exact writePixel_other _ _ _ _ h
  · rfl

theorem composeColT_pixel_other (capture : Frame) (x : Nat) (ys : List Nat)
    (acc : Frame) {y0 x0 : Nat} (h : x0 ≠ x ∨ y0 ∉ ys) :
    (composeColT capture x ys acc).pixel y0 x0 = acc.pixel y0 x0 := by
  induction ys generalizing acc with
  | nil => rfl
  | cons y ys ih =>
    rcases h with h | h
    · rw [composeColT, ih _ (Or.inl h), composeStepT_pixel_other _ _ _ _ (Or.inr h)]
    · have hy : y0 ≠ y := fun hc => h (hc ▸ List.mem_cons_self y ys)
      have hys : y0 ∉ ys := fun hc => h (List.mem_cons_of_mem y hc)
      rw [composeColT, ih _ (Or.inr hys), composeStepT_pixel_other _ _ _ _ (Or.inl hy)]

theorem composeAllT_pixel_other (capture : Frame) (gH : Nat) (xs : List Nat)
    (acc : Frame) {y0 x0 : Nat} (h : x0 ∉ xs) :
    (composeAllT capture gH xs acc).pixel y0 x0 = acc.pixel y0 x0 := by
  induction xs generalizing acc with
  | nil => rfl
  | cons x xs ih =>
    have hx : x0 ≠ x := fun hc => h (hc ▸ List.mem_cons_self x xs)
    have hxs : x0 ∉ xs := fun hc => h (List.mem_cons_of_mem x hc)
    rw [composeAllT, ih _ hxs, composeColT_pixel_other _ _ _ _ (Or.inl hx)]

theorem composeColT_pixel_hit (capture : Frame) (x : Nat) {ys : List Nat}
    (hnd : ys.Nodup) {y : Nat} (hmem : y ∈ ys) (acc : Frame) :
    (composeColT capture x ys acc).pixel y x =
      if acc.pixel y x = whitePixel then
        capture.pixel (y % capture.height) (x % capture.width)
      else acc.pixel y x := by
  induction ys generalizing acc with
  | nil => cases hmem
  | cons a ys ih =>
    rcases List.mem_cons.mp hmem with rfl | hmem2
    · have hnot : y ∉ ys := (List.nodup_cons.mp hnd).1
      rw [composeColT, composeColT_pixel_other _ _ _ _ (Or.inr hnot)]
      unfold composeStepT
      split
      · simp_all
      · simp_all
    · have hne : y ≠ a := fun hc =>
        (List.nodup_cons.mp hnd).1 (hc ▸ hmem2)
      rw [composeColT, ih (List.nodup_cons.mp hnd).2 hmem2,
        composeStepT_pixel_other _ _ _ _ (Or.inl hne)]

theorem composeAllT_pixel_hit (capture : Frame) (gH : Nat) {xs : List Nat}
    (hnd : xs.Nodup) {x : Nat} (hmem : x ∈ xs) {y : Nat} (hy : y < gH)
    (acc : Frame) :
    (composeAllT capture gH xs acc).pixel y x =
      if acc.pixel y x = whitePixel then
        capture.pixel (y % capture.height) (x % capture.width)
      else acc.pixel y x := by
  induction xs generalizing acc with
  | nil => cases hmem
  | cons a xs ih =>
    rcases List.mem_cons.mp hmem with rfl | hmem2
    · have hnot : x ∉ xs := (List.nodup_cons.mp hnd).1
      rw [composeAllT, composeAllT_pixel_other _ _ _ _ hnot,
        composeColT_pixel_hit _ _ (List.nodup_range gH) (List.mem_range.mpr hy)]
    · have hne : x ≠ a := fun hc =>
        (List.nodup_cons.mp hnd).1 (hc ▸ hmem2)
      rw [composeAllT, ih (List.nodup_cons.mp hnd).2 hmem2,
        composeColT_pixel_other _ _ _ _ (Or.inl hne)]

/-- Pointwise characterisation of the compositing loop at in-range
coordinates: white template pixels are replaced by the tiled capture
pixel, all others are kept. -/
theorem composeTotal_pixel (template capture : Frame) {x y : Nat}
    (hx : x < template.width) (hy : y < template.height) :
    (composeTotal template capture).pixel y x =
      if template.pixel y x = whitePixel then
        capture.pixel (y % capture.height) (x % capture.width)
      else template.pixel y x :=
  composeAllT_pixel_hit capture template.height (List.nodup_range template.width)
    (List.mem_range.mpr hx) hy template

theorem composeStepE_zero {capture : Frame}
    (hz : capture.height = 0 ∨ capture.width = 0) {x y : Nat} {acc : Frame}
    (hwt : acc.pixel y x = whitePixel) :
    composeStepE capture x y acc = .error .zeroDivisionError := by
  unfold composeStepE pymod
  by_cases hh : capture.height = 0
  · simp [hwt, hh]
  · have hw : capture.width = 0 := hz.resolve_left hh
    simp [hwt, hh, hw]

theorem composeStepE_nowhite {capture : Frame} {x y : Nat} {acc : Frame}
    (hnw : acc.pixel y x ≠ whitePixel) :
    composeStepE capture x y acc = .ok acc := by
  unfold composeStepE
  simp [hnw]

theorem composeCol_nowhite {capture : Frame} {x : Nat} {ys : List Nat} {acc : Frame}
    (hnw : ∀ y ∈ ys, acc.pixel y x ≠ whitePixel) :
    composeCol capture x ys acc = .ok acc := by
  induction ys with
  | nil => rfl
  | cons y ys ih =>
    rw [composeCol, composeStepE_nowhite (hnw y (List.mem_cons_self y ys))]
    exact ih fun y2 hy2 => hnw y2 (List.mem_cons_of_mem y hy2)

theorem composeAll_nowhite {capture : Frame} {gH : Nat} {xs : List Nat} {acc : Frame}
    (hnw : ∀ x ∈ xs, ∀ y ∈ List.range gH, acc.pixel y x ≠ whitePixel) :
    composeAll capture gH xs acc = .ok acc := by
  induction xs with
  | nil => rfl
  | cons x xs ih =>
    rw [composeAll, composeCol_nowhite (hnw x (List.mem_cons_self x xs))]
    exact ih fun x2 hx2 => hnw x2 (List.mem_cons_of_mem x hx2)

theorem composeCol_zero_err {capture : Frame}
    (hz : capture.height = 0 ∨ capture.width = 0) {x : Nat} {ys : List Nat}
    {acc : Frame} (hex : ∃ y ∈ ys, acc.pixel y x = whitePixel) :
    composeCol capture x ys acc = .error .zeroDivisionError := by
  induction ys with
  | nil => rcases hex with ⟨y, hy, _⟩; cases hy
  | cons y ys ih =>
    by_cases hw : acc.pixel y x = whitePixel
    · rw [composeCol, composeStepE_zero hz hw]
    · rw [composeCol, composeStepE_nowhite hw]
      rcases hex with ⟨y2, hy2, hw2⟩
      rcases List.mem_cons.mp hy2 with rfl | hy3
      · exact absurd hw2 hw
      · exact ih ⟨y2, hy3, hw2⟩

theorem composeAll_zero_err {capture : Frame}
    (hz : capture.height = 0 ∨ capture.width = 0) {gH : Nat} {xs : List Nat}
    {acc : Frame}
    (hex : ∃ x ∈ xs, ∃ y ∈ List.range gH, acc.pixel y x = whitePixel) :
    composeAll capture gH xs acc = .error .zeroDivisionError := by
  induction xs with
  | nil => rcases hex with ⟨x, hx, _⟩; cases hx
  | cons x xs ih =>
    by_cases hcol : ∃ y ∈ List.range gH, acc.pixel y x = whitePixel
    · rw [composeAll, composeCol_zero_err hz hcol]
    · push_neg at hcol
      rw [composeAll, composeCol_nowhite hcol]
      rcases hex with ⟨x2, hx2, hw2⟩
      rcases List.mem_cons.mp hx2 with rfl | hx3
      · exact absurd hw2 (by push_neg; exact hcol)
      · exact ih ⟨x2, hx3, hw2⟩

/-- Modelled from the spec: the external OpenCV primitive `cv2.line`
with thickness 3, for the axis-aligned segments the source draws.  A
pixel is covered when it lies within one pixel of the segment (3-pixel
stroke) in the perpendicular direction and inside the segment's span;
the spec notes that out-of-frame parts are clipped. -/
def lineCovers (p1 p2 : Int × Int) (x y : Int) : Bool :=
  if p1.1 = p2.1 then
    decide ((x - p1.1).natAbs ≤ 1 ∧ min p1.2 p2.2 ≤ y ∧ y ≤ max p1.2 p2.2)
  else if p1.2 = p2.2 then
    decide ((y - p1.2).natAbs ≤ 1 ∧ min p1.1 p2.1 ≤ x ∧ x ≤ max p1.1 p2.1)
  else false

/-- Modelled from the spec: `cv2.line(img, p1, p2, color, 3)`, drawing
only inside the frame bounds. -/
def cv2_line (img : Frame) (p1 p2 : Int × Int) (color : Pixel) : Frame :=
  { img with pixel := fun y x =>
      if y < img.height ∧ x < img.width ∧
          lineCovers p1 p2 (Int.ofNat x) (Int.ofNat y) = true then color
      else img.pixel y x }

/-- The external OpenCV primitive `cv2.flip(img, flipCode=1)`:
horizontal mirror, column `x` maps to column `w - 1 - x`. -/
def cv2_flip1 (f : Frame) : Frame :=
  { f with pixel := fun y x => f.pixel y (f.width - 1 - x) }

/-- The annotation transform of `get_frame_for_display` (model.py lines
71-82): copy the frame, draw the red (BGR `(0, 0, 255)`) crosshair
through the centre `(w / 2, h / 2)`, then mirror horizontally. -/
def drawTarget (frame : Frame) : Frame :=
  let cx : Int := Int.ofNat (frame.width / 2)
  let cy : Int := Int.ofNat (frame.height / 2)
  let img1 := cv2_line frame (cx, cy - 80) (cx, cy + 80) (0, 0, 255)
  let img2 := cv2_line img1 (cx - 80, cy) (cx + 80, cy) (0, 0, 255)
  cv2_flip1 img2

/-- The external OpenCV primitive `cv2.cvtColor(img, COLOR_BGR2RGB)`:
swap the first and third channel of every pixel. -/
def bgr2rgb (f : Frame) : Frame :=
  { f with pixel := fun y x =>
      match f.pixel y x with
      | (b, g, r) => (r, g, b) }

/-- A `cv2.VideoCapture` handle: all the model observes of it is
whether `isOpened()` holds. -/
structure Camera where
  opened : Bool
deriving DecidableEq

/-- The fields of `ImageProcessingModel` (model.py lines 18-27). -/
structure ModelState where
  current_live_frame : Option Frame
  captured_composite_image : Option Frame
  cap : Option Camera
  google_img : Option Frame

/-- `ImageProcessingModel.is_camera_open` (model.py line 43):
`self.cap is not None and self.cap.isOpened()`. -/
def is_camera_open (m : ModelState) : Bool :=
  match m.cap with
  | none => false
  | some c => c.opened

/-- `ImageProcessingModel.stop_capture` (model.py line 47): if the
camera is present and open, release it and clear the handle. -/
def stop_capture (m : ModelState) : ModelState :=
  match m.cap with
  | some c => if c.opened then { m with cap := none } else m
  | none => m

/-- `ImageProcessingModel.get_frame_for_display` (model.py line 53).
The outcome of `self.cap.read()` is the external input `read` (`none`
embeds `ret == False`).  On success the raw frame is stored in
`current_live_frame` and the crosshair-annotated, mirrored copy is
returned. -/
def get_frame_for_display (m : ModelState) (read : Option Frame) :
    ModelState × Option Frame :=
  if is_camera_open m = false then (m, none)
  else
    match read with
    | none => (m, none)
    | some frame =>
      ({ m with current_live_frame := some frame }, some (drawTarget frame))

/-- `ImageProcessingModel.process_and_capture_composite_image`
(model.py line 88): raises `ValueError` when the live frame or the
template is missing; otherwise runs the compositing loop, stores the
result in `captured_composite_image` and returns it.  The state
component of the result is the post-call state (unchanged when an
exception propagates). -/
def process_and_capture_composite_image (m : ModelState) :
    ModelState × Except PyError Frame :=
  match m.current_live_frame, m.google_img with
  | some capture, some gimg =>
    (match composeFun gimg capture with
     | .error e => (m, .error e)
     | .ok res => ({ m with captured_composite_image := some res }, .ok res))
  | _, _ =>
    (m, .error (.valueError "Google画像またはカメラフレームがロードされていません。"))

/-- `ImageProcessingModel.get_captured_image` (model.py line 115). -/
def get_captured_image (m : ModelState) : Option Frame :=
  m.captured_composite_image

/-- A write to the filesystem performed by `cv2.imwrite`. -/
structure FsWrite where
  path : String
  image : Frame

/-- `ImageProcessingModel.save_image` (model.py line 119): raises
`ValueError` when no composite exists, otherwise attempts the
`cv2.imwrite` (whose success is the external input `writeOk`) and
returns its boolean.  The second component lists the filesystem writes
attempted by the call. -/
def save_image (m : ModelState) (file_path : String) (writeOk : Bool) :
    Except PyError Bool × List FsWrite :=
  match m.captured_composite_image with
  | none => (.error (.valueError "保存する画像がありません。"), [])
  | some img => (.ok writeOk, [⟨file_path, img⟩])

/-- Calls the `Interface` makes on the view (status bar, message boxes,
image display, toggle-button label), recorded in call order. -/
inductive ViewEvent where
  | statusMessage (msg : String)
  | errorMessage (title msg : String)
  | displayFrame (f : Option Frame)
  | setToggleButtonText (label : String)

/-- The state of the `Interface` controller (interface.py lines 16-26):
the model, the QTimer's active flag, and `is_live_feed`. -/
structure IfaceState where
  model : ModelState
  timerActive : Bool
  is_live_feed : Bool

/-- `Interface._stop_live_feed` (interface.py line 100): stop the
timer, clear `is_live_feed`, relabel the toggle button. -/
def stop_live_feed (s : IfaceState) : IfaceState × List ViewEvent :=
  ({ s with timerActive := false, is_live_feed := false },
   [.setToggleButtonText "再開"])

/-- `Interface.update_frame` (interface.py line 106): poll the model
for a display frame; on `None` while the live feed is active, stop the
feed, release the camera, blank the display and report; otherwise show
the BGR-to-RGB converted frame. -/
def update_frame (s : IfaceState) (read : Option Frame) :
    IfaceState × List ViewEvent :=
  match get_frame_for_display s.model read with
  | (m2, none) =>
    if s.is_live_feed then
      let su := { s with model := m2 }
      let (s2, ev1) := stop_live_feed su
      let s3 := { s2 with model := stop_capture s2.model }
      (s3, ev1 ++ [.displayFrame none,
        .statusMessage "フレーム取得失敗。カメラを停止しました。"])
    else ({ s with model := m2 }, [])
  | (m2, some frame) =>
    ({ s with model := m2 }, [.displayFrame (some (bgr2rgb frame))])

/-- `Interface.handle_capture_and_composite` (interface.py line 135):
reject the request unless the live feed is active; otherwise run the
model's compositing, display the result, and freeze the feed.  Only
`ValueError` is caught; any other exception propagates as `.error`. -/
def handle_capture_and_composite (s : IfaceState) :
    Except PyError (IfaceState × List ViewEvent) :=
  if s.is_live_feed = false then
    .ok (s, [.statusMessage "エラー: ライブフィード中に合成を行ってください。"])
  else
    let ev0 : ViewEvent := .statusMessage "画像合成処理を実行中..."
    match process_and_capture_composite_image s.model with
    | (m2, .ok img) =>
      let s1 := { s with model := m2 }
      let (s2, evStop) := stop_live_feed s1
      .ok (s2, [ev0, .displayFrame (some (bgr2rgb img))] ++ evStop ++
        [.statusMessage
          "画像合成完了: 合成画像を中央に表示中。「再開」ボタンでライブに戻ります。"])
    | (m2, .error (.valueError msg)) =>
      .ok ({ s with model := m2 }, [ev0, .errorMessage "処理エラー" msg])
    | (_, .error PyError.zeroDivisionError) => .error PyError.zeroDivisionError

/-- `Interface.handle_save_image` (interface.py line 170): bail out
with a status message when no composite exists; otherwise ask the view
for a filename (`chosen`, `none` embeds cancel/empty) and delegate to
`save_image`, reporting the outcome.  The last component lists the
filesystem writes attempted. -/
def handle_save_image (s : IfaceState) (chosen : Option String) (writeOk : Bool) :
    Except PyError (IfaceState × List ViewEvent × List FsWrite) :=
  match get_captured_image s.model with
  | none =>
    .ok (s, [.statusMessage
      "エラー: 保存する画像がありません。「画像合成を実行」ボタンで合成画像をキャプチャしてください。"], [])
  | some _ =>
    match chosen with
    | none => .ok (s, [], [])
    | some file_path =>
      let ev0 : ViewEvent := .statusMessage ("画像を '" ++ file_path ++ "' に保存中...")
      match save_image s.model file_path writeOk with
      | (.ok true, ws) =>
        .ok (s, [ev0, .statusMessage ("保存完了: " ++ file_path)], ws)
      | (.ok false, ws) =>
        .ok (s, [ev0, .errorMessage "保存エラー" "ファイル書き込みに失敗しました。"], ws)
      | (.error (.valueError msg), ws) =>
        .ok (s, [ev0, .errorMessage "保存エラー" msg], ws)
      | (.error PyError.zeroDivisionError, _) => .error PyError.zeroDivisionError

/-- Shared helper: a successful compose at the model level, when both
inputs are present and the capture frame has positive dimensions. -/
theorem process_ok {m : ModelState} {g f : Frame} (hg : m.google_img = some g)
    (hf : m.current_live_frame = some f) (hh : 0 < f.height) (hw : 0 < f.width) :
    process_and_capture_composite_image m =
      ({ m with captured_composite_image := some (composeTotal g f) },
       Except.ok (composeTotal g f)) := by
  unfold process_and_capture_composite_image
  rw [hf, hg]
  dsimp only
  rw [composeFun_eq_ok hh hw]

/-- A 4×4 all-white template: the end-to-end scenario of the spec. -/
def tmplW4 : Frame :=
  { height := 4, width := 4, pixel := fun _ _ => (255, 255, 255) }

/-- A 2×2 source frame with a distinct colour at every coordinate. -/
def src2 : Frame :=
  { height := 2, width := 2, pixel := fun y x => (y, x, 10 * y + x) }

/-- A 1×1 pure-white template. -/
def tmplWhite1 : Frame :=
  { height := 1, width := 1, pixel := fun _ _ => (255, 255, 255) }

/-- A source frame of height 0. -/
def srcZero : Frame :=
  { height := 0, width := 2, pixel := fun _ _ => (0, 0, 0) }

/-- A 2×2 template with no white pixel. -/
def tmplBlack2 : Frame :=
  { height := 2, width := 2, pixel := fun _ _ => (0, 0, 0) }

/-- A model state with an open camera, a captured live frame and a
loaded template, but no composite yet. -/
def mFull : ModelState :=
  { current_live_frame := some src2, captured_composite_image := none,
    cap := some ⟨true⟩, google_img := some tmplW4 }

/-- A model state with an open camera and a loaded template only. -/
def mCam : ModelState :=
  { current_live_frame := none, captured_composite_image := none,
    cap := some ⟨true⟩, google_img := some tmplW4 }

/-- The freshly constructed model state: everything absent. -/
def mEmpty : ModelState :=
  { current_live_frame := none, captured_composite_image := none,
    cap := none, google_img := none }

/-- A live interface state over `mFull`. -/
def sLive : IfaceState :=
  { model := mFull, timerActive := true, is_live_feed := true }

/-- A frozen interface state over `mFull`: live feed stopped, camera
handle kept, raw frame and template present. -/
def sFrozen : IfaceState :=
  { model := mFull, timerActive := false, is_live_feed := false }

/-- An interface state over the empty model. -/
def sEmpty : IfaceState :=
  { model := mEmpty, timerActive := false, is_live_feed := false }

/-- C1: for every template and positive-dimension source frame, the
compose result at a pure-white template coordinate `(x, y)` is the
source pixel at `(y mod height, x mod width)` — the source is tiled by
modulo indexing over the template's coordinate space. -/
theorem white_pixels_tiled (T S : Frame) (hh : 0 < S.height) (hw : 0 < S.width)
    (x y : Nat) (hx : x < T.width) (hy : y < T.height)
    (hwt : T.pixel y x = whitePixel) :
    ∃ R, composeFun T S = Except.ok R ∧
      R.pixel y x = S.pixel (y % S.height) (x % S.width) :=
  ⟨composeTotal T S, composeFun_eq_ok hh hw T,
    by rw [composeTotal_pixel T S hx hy, if_pos hwt]⟩

/-- Witness for C1, on the spec's end-to-end scenario: 4×4 all-white
template, 2×2 source, checked at coordinate `(x, y) = (3, 2)`. -/
theorem white_pixels_tiled_witness :
    ∃ R, composeFun tmplW4 src2 = Except.ok R ∧
      R.pixel 2 3 = src2.pixel (2 % src2.height) (3 % src2.width) :=
  white_pixels_tiled tmplW4 src2 (by decide) (by decide) 3 2 (by decide)
    (by decide) (by decide)

/-- C2: every non-white template pixel is preserved verbatim in the
compose result, and a template with no pure-white pixel yields an
unmodified copy of the template. -/
theorem nonwhite_pixels_preserved (T S : Frame) :
    (∀ x y, x < T.width → y < T.height → T.pixel y x ≠ whitePixel →
      ∀ R, composeFun T S = Except.ok R → R.pixel y x = T.pixel y x) ∧
    ((∀ x y, x < T.width → y < T.height → T.pixel y x ≠ whitePixel) →
      composeFun T S = Except.ok T) := by
  constructor
  · intro x y hx hy hnw R hR
    by_cases hz : S.height = 0 ∨ S.width = 0
    · by_cases hex : ∃ x2 ∈ List.range T.width, ∃ y2 ∈ List.range T.height,
          T.pixel y2 x2 = whitePixel
      · have herr : composeFun T S = Except.error PyError.zeroDivisionError :=
          composeAll_zero_err hz hex
        rw [herr] at hR
        exact Except.noConfusion hR
      · push_neg at hex
        have hok : composeFun T S = Except.ok T := composeAll_nowhite hex
        rw [hok] at hR
        cases hR
        rfl
    · push_neg at hz
      have hok := composeFun_eq_ok (Nat.pos_of_ne_zero hz.1) (Nat.pos_of_ne_zero hz.2) T
      rw [hok] at hR
      cases hR
      rw [composeTotal_pixel T S hx hy, if_neg hnw]
  · intro hall
    exact composeAll_nowhite fun x2 hx2 y2 hy2 =>
      hall x2 y2 (List.mem_range.mp hx2) (List.mem_range.mp hy2)

/-- Witness for C2: a 2×2 all-black template comes back unmodified. -/
theorem nonwhite_pixels_preserved_witness :
    composeFun tmplBlack2 src2 = Except.ok tmplBlack2 :=
  (nonwhite_pixels_preserved tmplBlack2 src2).2
    (fun x y _ _ => by simp only [tmplBlack2, whitePixel]; decide)

/-- C9: with a positive-dimension source frame, the compose result has
the template's height and width. -/
theorem compose_dims_match_template (T S : Frame) (hh : 0 < S.height)
    (hw : 0 < S.width) :
    ∃ R, composeFun T S = Except.ok R ∧ R.height = T.height ∧ R.width = T.width :=
  ⟨composeTotal T S, composeFun_eq_ok hh hw T, by simp [composeTotal],
    by simp [composeTotal]⟩

/-- Witness for C9 on the 4×4 / 2×2 scenario. -/
theorem compose_dims_match_template_witness :
    ∃ R, composeFun tmplW4 src2 = Except.ok R ∧
      R.height = tmplW4.height ∧ R.width = tmplW4.width :=
  compose_dims_match_template tmplW4 src2 (by decide) (by decide)

/-- C3 counterexample: on a height-0 source frame and a template with
a pure-white pixel, the compose loop raises `ZeroDivisionError` from
the modulo itself; there is no fail-fast invalid-input check. -/
theorem zero_dim_source_hits_mod_zero :
    srcZero.height = 0 ∧
      composeFun tmplWhite1 srcZero = Except.error PyError.zeroDivisionError :=
  ⟨rfl, rfl⟩

/-- C3 (amended): with a zero-dimension source frame the compose loop
performs no invalid-input check: it raises `ZeroDivisionError` exactly
when the template contains an in-range pure-white pixel, and otherwise
completes normally, returning the template unchanged. -/
theorem zero_dim_source_behavior (T S : Frame)
    (hz : S.height = 0 ∨ S.width = 0) :
    (composeFun T S = Except.error PyError.zeroDivisionError ↔
      ∃ x, x < T.width ∧ ∃ y, y < T.height ∧ T.pixel y x = whitePixel) ∧
    (composeFun T S = Except.error PyError.zeroDivisionError ∨
      composeFun T S = Except.ok T) := by
  by_cases hex : ∃ x ∈ List.range T.width, ∃ y ∈ List.range T.height,
      T.pixel y x = whitePixel
  · have herr : composeFun T S = Except.error PyError.zeroDivisionError :=
      composeAll_zero_err hz hex
    refine ⟨⟨fun _ => ?_, fun _ => herr⟩, Or.inl herr⟩
    rcases hex with ⟨x, hx, y, hy, hw⟩
    exact ⟨x, List.mem_range.mp hx, y, List.mem_range.mp hy, hw⟩
  · push_neg at hex
    have hok : composeFun T S = Except.ok T := composeAll_nowhite hex
    refine ⟨⟨fun h => ?_, ?_⟩, Or.inr hok⟩
    · rw [hok] at h
      exact Except.noConfusion h
    · rintro ⟨x, hx, y, hy, hw⟩
      exact absurd hw (hex x (List.mem_range.mpr hx) y (List.mem_range.mpr hy))

/-- Witness for the amended C3, on the 1×1 white template and the
height-0 source. -/
theorem zero_dim_source_behavior_witness :
    (composeFun tmplWhite1 srcZero = Except.error PyError.zeroDivisionError ↔
      ∃ x, x < tmplWhite1.width ∧ ∃ y, y < tmplWhite1.height ∧
        tmplWhite1.pixel y x = whitePixel) ∧
    (composeFun tmplWhite1 srcZero = Except.error PyError.zeroDivisionError ∨
      composeFun tmplWhite1 srcZero = Except.ok tmplWhite1) :=
  zero_dim_source_behavior tmplWhite1 srcZero (Or.inl rfl)

/-- C4 counterexample: in the Frozen state (live feed stopped, camera
handle kept, raw frame and template present) a compose request is
rejected by `handle_capture_and_composite` with a status message: the
Compositor is not run, no CompositeResult is stored, and the session
state is unchanged. -/
theorem frozen_compose_rejected :
    handle_capture_and_composite sFrozen =
      Except.ok (sFrozen,
        [ViewEvent.statusMessage "エラー: ライブフィード中に合成を行ってください。"]) ∧
    sFrozen.is_live_feed = false ∧
    is_camera_open sFrozen.model = true ∧
    sFrozen.model.current_live_frame = some src2 ∧
    sFrozen.model.google_img = some tmplW4 ∧
    sFrozen.model.captured_composite_image = none :=
  ⟨rfl, rfl, rfl, rfl, rfl, rfl⟩

/-- C4 (amended): a compose request is honoured only while the live
feed is active.  In any state with the live feed stopped (Frozen) the
request is rejected with a status message and the state is unchanged;
in the Live state with template and a positive-dimension last raw frame
present, the Compositor runs on them, the CompositeResult is stored,
and the session moves to the frozen/composited state with the camera
handle kept. -/
theorem compose_requires_live_feed (s : IfaceState) :
    (s.is_live_feed = false →
      handle_capture_and_composite s =
        Except.ok (s,
          [ViewEvent.statusMessage "エラー: ライブフィード中に合成を行ってください。"])) ∧
    (∀ g f, s.is_live_feed = true → s.model.google_img = some g →
      s.model.current_live_frame = some f → 0 < f.height → 0 < f.width →
      ∃ s2 evs, handle_capture_and_composite s = Except.ok (s2, evs) ∧
        s2.model.captured_composite_image = some (composeTotal g f) ∧
        s2.is_live_feed = false ∧ s2.timerActive = false ∧
        s2.model.cap = s.model.cap ∧
        s2.model.current_live_frame = s.model.current_live_frame) := by
  constructor
  · intro h
    unfold handle_capture_and_composite
    rw [h]
    rfl
  · intro g f hl hg hf hh hw
    unfold handle_capture_and_composite
    rw [hl, process_ok hg hf hh hw]
    exact ⟨_, _, rfl, rfl, rfl, rfl, rfl, rfl⟩

/-- Witness for the amended C4: composing from the concrete live state
stores the composite, freezes the feed and keeps the camera handle. -/
theorem compose_requires_live_feed_witness :
    ∃ s2 evs, handle_capture_and_composite sLive = Except.ok (s2, evs) ∧
      s2.model.captured_composite_image = some (composeTotal tmplW4 src2) ∧
      s2.is_live_feed = false ∧ s2.timerActive = false ∧
      s2.model.cap = sLive.model.cap ∧
      s2.model.current_live_frame = sLive.model.current_live_frame :=
  (compose_requires_live_feed sLive).2 tmplW4 src2 rfl rfl rfl (by decide) (by decide)

/-- C5: when the template or the last captured frame is absent, the
model-level compose raises `ValueError` and mutates nothing: the state
returned is exactly the state before the call. -/
theorem compose_missing_input_no_mutation (m : ModelState)
    (h : m.current_live_frame = none ∨ m.google_img = none) :
    process_and_capture_composite_image m =
      (m, Except.error (PyError.valueError
        "Google画像またはカメラフレームがロードされていません。")) := by
  unfold process_and_capture_composite_image
  rcases h with h | h
  · rw [h]
  · rw [h]
    cases m.current_live_frame <;> rfl

/-- Witness for C5 on the empty model state. -/
theorem compose_missing_input_no_mutation_witness :
    process_and_capture_composite_image mEmpty =
      (mEmpty, Except.error (PyError.valueError
        "Google画像またはカメラフレームがロードされていません。")) :=
  compose_missing_input_no_mutation mEmpty (Or.inl rfl)

/-- C6: a successful poll stores the pre-annotation camera frame as
the last raw frame and returns the annotated/mirrored copy for
preview; a subsequent compose consumes exactly the stored raw frame,
never the preview. -/
theorem poll_stores_raw_frame (m : ModelState) (f : Frame)
    (hopen : is_camera_open m = true) :
    (get_frame_for_display m (some f)).1.current_live_frame = some f ∧
    (get_frame_for_display m (some f)).2 = some (drawTarget f) ∧
    ∀ g, m.google_img = some g → 0 < f.height → 0 < f.width →
      (process_and_capture_composite_image
        (get_frame_for_display m (some f)).1).2 =
        Except.ok (composeTotal g f) := by
  have hm : get_frame_for_display m (some f) =
      ({ m with current_live_frame := some f }, some (drawTarget f)) := by
    unfold get_frame_for_display
    rw [hopen]
    rfl
  refine ⟨by rw [hm], by rw [hm], ?_⟩
  intro g hg hh hw
  rw [hm, process_ok (m := { m with current_live_frame := some f }) hg rfl hh hw]

/-- Witness for C6: polling the concrete camera state with the 2×2
frame stores it raw, and the subsequent compose consumes it. -/
theorem poll_stores_raw_frame_witness :
    (get_frame_for_display mCam (some src2)).1.current_live_frame = some src2 ∧
    (get_frame_for_display mCam (some src2)).2 = some (drawTarget src2) ∧
    (process_and_capture_composite_image
      (get_frame_for_display mCam (some src2)).1).2 =
      Except.ok (composeTotal tmplW4 src2) :=
  ⟨(poll_stores_raw_frame mCam src2 rfl).1,
   (poll_stores_raw_frame mCam src2 rfl).2.1,
   (poll_stores_raw_frame mCam src2 rfl).2.2 tmplW4 rfl (by decide) (by decide)⟩

/-- Shared helper: `stop_capture` on an open camera clears the handle. -/
theorem stop_capture_open {m : ModelState} (h : is_camera_open m = true) :
    stop_capture m = { m with cap := none } := by
  unfold is_camera_open at h
  unfold stop_capture
  cases hc : m.cap with
  | none => rw [hc] at h; cases h
  | some c =>
    rw [hc] at h
    dsimp only at h ⊢
    rw [if_pos h]

/-- Shared helper: `stop_capture` on a closed camera is a no-op. -/
theorem stop_capture_closed {m : ModelState} (h : is_camera_open m = false) :
    stop_capture m = m := by
  unfold is_camera_open at h
  unfold stop_capture
  cases hc : m.cap with
  | none => rfl
  | some c =>
    rw [hc] at h
    dsimp only at h ⊢
    rw [if_neg (by simp [h])]

/-- C7: a failed frame read while the session is Live stops the feed,
releases and clears the device handle (so `is_camera_open` reports
false), and leaves the stored frames untouched. -/
theorem read_failure_releases_camera (s : IfaceState)
    (hopen : is_camera_open s.model = true) (hlive : s.is_live_feed = true) :
    ∃ s2 evs, update_frame s none = (s2, evs) ∧
      s2.model.cap = none ∧ is_camera_open s2.model = false ∧
      s2.is_live_feed = false ∧ s2.timerActive = false ∧
      s2.model.current_live_frame = s.model.current_live_frame ∧
      s2.model.captured_composite_image = s.model.captured_composite_image := by
  have hg : get_frame_for_display s.model none = (s.model, none) := by
    unfold get_frame_for_display
    rw [hopen]
    rfl
  have hstop : stop_capture s.model = { s.model with cap := none } :=
    stop_capture_open hopen
  unfold update_frame
  rw [hg, hlive]
  dsimp only [stop_live_feed]
  rw [hstop]
  exact ⟨_, _, rfl, rfl, rfl, rfl, rfl, rfl, rfl⟩

/-- Witness for C7 on the concrete live state: after the failed read
the handle is cleared and the query reports closed. -/
theorem read_failure_releases_camera_witness :
    ∃ s2 evs, update_frame sLive none = (s2, evs) ∧
      s2.model.cap = none ∧ is_camera_open s2.model = false ∧
      s2.is_live_feed = false ∧ s2.timerActive = false ∧
      s2.model.current_live_frame = sLive.model.current_live_frame ∧
      s2.model.captured_composite_image = sLive.model.captured_composite_image :=
  read_failure_releases_camera sLive rfl rfl

/-- C8: with no composite stored, the model-level save raises the
"nothing to save" `ValueError` and attempts no filesystem write, and
the interface-level save handler reports the condition, leaves the
state unchanged, and attempts no filesystem write either. -/
theorem save_without_composite (s : IfaceState) (path : String)
    (chosen : Option String) (writeOk : Bool)
    (h : s.model.captured_composite_image = none) :
    save_image s.model path writeOk =
      (Except.error (PyError.valueError "保存する画像がありません。"), []) ∧
    handle_save_image s chosen writeOk =
      Except.ok (s, [ViewEvent.statusMessage
        "エラー: 保存する画像がありません。「画像合成を実行」ボタンで合成画像をキャプチャしてください。"], []) := by
  constructor
  · unfold save_image
    rw [h]
  · unfold handle_save_image get_captured_image
    rw [h]

/-- Witness for C8 on the empty session state. -/
theorem save_without_composite_witness :
    save_image sEmpty.model "composite_image.png" true =
      (Except.error (PyError.valueError "保存する画像がありません。"), []) ∧
    handle_save_image sEmpty (some "composite_image.png") true =
      Except.ok (sEmpty, [ViewEvent.statusMessage
        "エラー: 保存する画像がありません。「画像合成を実行」ボタンで合成画像をキャプチャしてください。"], []) :=
  save_without_composite sEmpty "composite_image.png" (some "composite_image.png") true rfl

/-- C10: releasing the capture source changes none of the stored
images: the last raw frame, the last composite and the template are
preserved, the stored composite stays retrievable, the camera reports
closed, and a model-level compose on the retained raw frame still
succeeds. -/
theorem release_preserves_images (m : ModelState) :
    (stop_capture m).current_live_frame = m.current_live_frame ∧
    (stop_capture m).captured_composite_image = m.captured_composite_image ∧
    (stop_capture m).google_img = m.google_img ∧
    get_captured_image (stop_capture m) = get_captured_image m ∧
    is_camera_open (stop_capture m) = false ∧
    ∀ f g, m.current_live_frame = some f → m.google_img = some g →
      0 < f.height → 0 < f.width →
      (process_and_capture_composite_image (stop_capture m)).2 =
        Except.ok (composeTotal g f) := by
  by_cases hco : is_camera_open m = true
  · rw [stop_capture_open hco]
    refine ⟨rfl, rfl, rfl, rfl, rfl, ?_⟩
    intro f g hf hg hh hw
    rw [process_ok (m := { m with cap := none }) hg hf hh hw]
  · have hb : is_camera_open m = false := by
      revert hco; cases is_camera_open m <;> simp
    rw [stop_capture_closed hb]
    refine ⟨rfl, rfl, rfl, rfl, hb, ?_⟩
    intro f g hf hg hh hw
    rw [process_ok hg hf hh hw]

/-- Witness for C10 on the concrete full model state. -/
theorem release_preserves_images_witness :
    (stop_capture mFull).current_live_frame = mFull.current_live_frame ∧
    is_camera_open (stop_capture mFull) = false ∧
    (process_and_capture_composite_image (stop_capture mFull)).2 =
      Except.ok (composeTotal tmplW4 src2) :=
  ⟨(release_preserves_images mFull).1,
   (release_preserves_images mFull).2.2.2.2.1,
   (release_preserves_images mFull).2.2.2.2.2 src2 tmplW4 rfl rfl (by decide) (by decide)⟩
